import Mathlib

/-!
# WeatherWise weather-aggregation core: shallow embedding and verification

This file embeds the weather aggregation layer of the WeatherWise MCP server
(the aggregator, the two provider adapters, the caches and the alert service)
as executable Lean definitions, and proves or refutes the frozen claims about
it.

Modelling conventions (uniform throughout):
* JavaScript numbers (IEEE doubles) are modelled as exact rationals `ℚ`;
  numeric literals such as `0.9`, `3.6`, `1.60934` become the corresponding
  rationals.
* Instants are modelled as epoch values (`Nat`, milliseconds for cache clocks,
  seconds for provider timestamps).  The UTC calendar-date string
  `new Date(dt*1000).toISOString().slice(0,10)` is modelled by the UTC day
  index `dt / 86400`: for the epoch range in use, the JS rendering is a
  strictly monotone injection of the day index, so keying and lexicographic
  sorting of date strings coincide with keying and numeric sorting of day
  indices.
* The network is a parameter: each adapter operation takes the upstream
  response (or failure) as an explicit argument and reports how many outbound
  calls it issued; the aggregator takes provider behaviours as a record of
  functions and reports the list of providers invoked.
* Thrown JS `Error`s are modelled as `Except String` with the source's
  message strings; `try/catch` becomes a `match` on the `Except`.
* JS truthiness on optional strings/numbers (where the source relies on it)
  is modelled explicitly: `none` and `some ""` (resp. `some 0`) are falsy.
* The `lru-cache` store is modelled as a recency-ordered association list
  with the source's TTL rule (an entry is live iff `now - insertedAt ≤ ttl`)
  and capacity truncation on insert; `get` is modelled as a pure read (no
  claim depends on recency refreshing).
-/

namespace WeatherWise

/-- Unit systems, from `config.ts` (`type Units = "metric" | "imperial"`). -/
inductive Units where
  | metric
  | imperial
deriving DecidableEq

/-- `LocationQuery` from `weather/types.ts`: all fields optional. -/
structure LocationQuery where
  city : Option String := none
  country : Option String := none
  lat : Option ℚ := none
  lon : Option ℚ := none
deriving DecidableEq

/-- JS truthiness of an optional string: `none` and `some ""` are falsy. -/
def truthyStr (s : Option String) : Bool :=
  match s with
  | none => false
  | some s => !(s == "")

/-- JS truthiness of an optional number: `none` and `some 0` are falsy. -/
def truthyNum (x : Option ℚ) : Bool :=
  match x with
  | none => false
  | some v => !(v == 0)

/-- JS truthiness of an optional integer (used for weather condition ids). -/
def truthyInt (x : Option Int) : Bool :=
  match x with
  | none => false
  | some v => !(v == 0)

/-- `a || b` on optional strings: keep `a` when truthy, else `b`. -/
def jsOrStr (a b : Option String) : Option String :=
  if truthyStr a then a else b

/-- `a || b` on optional integers: keep `a` when truthy, else `b`. -/
def jsOrInt (a b : Option Int) : Option Int :=
  if truthyInt a then a else b

/-- Deterministic rendering of a rational, standing in for JS decimal
number formatting inside template strings and `JSON.stringify`. -/
def ratRepr (x : ℚ) : String :=
  toString x.num ++ "/" ++ toString x.den

/-- `JSON.stringify` of a `LocationQuery`: fields in declaration order,
`undefined` fields omitted. -/
def stringifyQuery (q : LocationQuery) : String :=
  let f (k : String) (v : Option String) : String :=
    match v with
    | none => ""
    | some s => "\x22" ++ k ++ "\x22:" ++ s ++ ","
  "\x7b" ++ f "city" q.city ++ f "country" q.country
    ++ f "lat" (q.lat.map ratRepr) ++ f "lon" (q.lon.map ratRepr) ++ "\x7d"

/-- `keyOf` from `aggregator.ts`:
`` `${prefix}:${JSON.stringify(q)}:${JSON.stringify(extra ?? {})}` ``
with the stringified extra passed in by each operation. -/
def keyOf (pre : String) (q : LocationQuery) (extra : String) : String :=
  pre ++ ":" ++ stringifyQuery q ++ ":" ++ extra

/-- Normalized location record (shared by every normalized shape). -/
structure WLocation where
  name : String
  lat : ℚ
  lon : ℚ
  country : Option String := none
deriving DecidableEq

/-- Normalized condition object (`text` is optional here because the
WeatherAPI-style adapter copies a possibly-missing upstream field into it). -/
structure WCondition where
  text : Option String := none
  iconUrl : Option String := none
  code : Option Int := none
deriving DecidableEq

/-- `CurrentWeather` from `weather/types.ts` (observedAt as epoch seconds). -/
structure CurrentWeather where
  provider : String
  location : WLocation
  observedAt : Nat
  temperatureC : ℚ
  temperatureF : ℚ
  feelsLikeC : Option ℚ := none
  feelsLikeF : Option ℚ := none
  humidity : Option ℚ := none
  windKph : Option ℚ := none
  windMph : Option ℚ := none
  windDir : Option String := none
  pressureMb : Option ℚ := none
  uv : Option ℚ := none
  condition : WCondition
deriving DecidableEq

/-- Forecast-day condition object (all fields optional in `ForecastDay`). -/
structure FCondition where
  text : Option String := none
  iconUrl : Option String := none
  code : Option Int := none
deriving DecidableEq

/-- `ForecastDay` from `weather/types.ts`; `date` is the UTC day index
standing in for the `"YYYY-MM-DD"` string. -/
structure ForecastDay where
  date : Nat
  avgTempC : Option ℚ := none
  avgTempF : Option ℚ := none
  maxTempC : Option ℚ := none
  maxTempF : Option ℚ := none
  minTempC : Option ℚ := none
  minTempF : Option ℚ := none
  chanceOfRainPct : Option Int := none
  chanceOfSnowPct : Option Int := none
  condition : Option FCondition := none
deriving DecidableEq

/-- `Forecast` from `weather/types.ts`. -/
structure Forecast where
  provider : String
  location : WLocation
  days : List ForecastDay
deriving DecidableEq

/-- `HistoricalWeather` from `weather/types.ts`: a `CurrentWeather` plus a
calendar date (modelled as the UTC day index). -/
structure HistoricalWeather where
  current : CurrentWeather
  date : Nat
deriving DecidableEq

/-! ## OpenWeather-style adapter (`weather/providers/openWeather.ts`) -/

/-- Structured stand-in for the query-string fragment built by
`resolveQueryParams` (`lat=…&lon=…` versus `q=city[,country]`). -/
inductive OWParams where
  | coords (lat lon : ℚ)
  | cityQ (city : String) (country : Option String)
deriving DecidableEq

/-- `resolveQueryParams` from `openWeather.ts`: lat/lon pair when both are
non-null, else a truthy city (with the country appended when truthy),
else the thrown `InvalidQuery` error. -/
def resolveQueryParams (q : LocationQuery) : Except String OWParams :=
  match q.lat, q.lon with
  | some la, some lo => .ok (.coords la lo)
  | _, _ =>
    match q.city with
    | some c =>
      if c ≠ "" then .ok (.cityQ c (if truthyStr q.country then q.country else none))
      else .error "OpenWeather: provide city or lat/lon"
    | none => .error "OpenWeather: provide city or lat/lon"

/-- One element of `d.weather` in an OpenWeather response. -/
structure OWWeather0 where
  description : Option String := none
  icon : Option String := none
  id : Option Int := none
deriving DecidableEq

/-- The OpenWeather `/data/2.5/weather` response fields the adapter reads. -/
structure OWCurrentResp where
  name : Option String := none
  coordLat : ℚ
  coordLon : ℚ
  sysCountry : Option String := none
  dt : Nat
  temp : ℚ
  feelsLike : ℚ
  humidity : ℚ
  pressure : ℚ
  windSpeed : ℚ
  windDeg : Option ℚ := none
  weather0 : Option OWWeather0 := none
deriving DecidableEq

/-- OpenWeather icon URL template. -/
def owIconUrl (icon : String) : String :=
  "https://openweathermap.org/img/wn/" ++ icon ++ "@2x.png"

/-- Celsius reading of an OpenWeather temperature reported in `units`. -/
def owTempC (units : Units) (t : ℚ) : ℚ :=
  if units = .metric then t else (t - 32) * (5 / 9)

/-- Fahrenheit reading of an OpenWeather temperature reported in `units`. -/
def owTempF (units : Units) (t : ℚ) : ℚ :=
  if units = .imperial then t else t * (9 / 5) + 32

/-- The pure normalization step of `ow.getCurrent`: maps the raw response
into the common `CurrentWeather` shape (provider tag `"openweather"`,
dual-unit temperature and wind fields). -/
def owNormalizeCurrent (units : Units) (d : OWCurrentResp) : CurrentWeather :=
  let coordName := ratRepr d.coordLat ++ "," ++ ratRepr d.coordLon
  { provider := "openweather"
    location :=
      { name := if truthyStr d.name then d.name.getD coordName else coordName
        lat := d.coordLat
        lon := d.coordLon
        country := d.sysCountry }
    observedAt := d.dt
    temperatureC := owTempC units d.temp
    temperatureF := owTempF units d.temp
    feelsLikeC := some (owTempC units d.feelsLike)
    feelsLikeF := some (owTempF units d.feelsLike)
    humidity := some d.humidity
    windKph := some (if units = .metric then d.windSpeed * (36 / 10)
                     else d.windSpeed * (160934 / 100000))
    windMph := some (if units = .imperial then d.windSpeed
                     else d.windSpeed * (36 / 10) / (160934 / 100000))
    windDir := d.windDeg.map (fun deg => ratRepr deg ++ "°")
    pressureMb := some d.pressure
    uv := none
    condition :=
      { text := some (if truthyStr (d.weather0.bind (fun w => w.description))
                      then (d.weather0.bind (fun w => w.description)).getD "Unknown"
                      else "Unknown")
        iconUrl := if truthyStr (d.weather0.bind (fun w => w.icon))
                   then (d.weather0.bind (fun w => w.icon)).map owIconUrl
                   else none
        code := d.weather0.bind (fun w => w.id) } }

/-- `ow.getCurrent` with the network as an explicit parameter; the second
component counts outbound HTTP calls. -/
def owGetCurrentOp (net : OWParams → Units → Except String OWCurrentResp)
    (q : LocationQuery) (units : Units) : Except String CurrentWeather × Nat :=
  match resolveQueryParams q with
  | .error e => (.error e, 0)
  | .ok p =>
    match net p units with
    | .error e => (.error e, 1)
    | .ok d => (.ok (owNormalizeCurrent units d), 1)

/-- One 3-hour slot of the OpenWeather `/data/2.5/forecast` list. -/
structure OWItem where
  dt : Nat
  temp : ℚ
  rain3h : Option ℚ := none
  snow3h : Option ℚ := none
  wdesc : Option String := none
  wicon : Option String := none
  wid : Option Int := none
deriving DecidableEq

/-- The `city` part of an OpenWeather forecast response. -/
structure OWCity where
  name : Option String := none
  lat : ℚ
  lon : ℚ
  country : Option String := none
deriving DecidableEq

/-- The OpenWeather forecast response fields the adapter reads. -/
structure OWForecastResp where
  city : OWCity
  list : List OWItem
deriving DecidableEq

/-- The per-day accumulator `byDate[isoDate]` of `ow.getForecast`. -/
structure OWDayAcc where
  tempsC : List ℚ := []
  tempsF : List ℚ := []
  rainSlots : Nat := 0
  snowSlots : Nat := 0
  totalSlots : Nat := 0
  condText : Option String := none
  icon : Option String := none
  code : Option Int := none
deriving DecidableEq

/-- UTC day index of a forecast slot: models
`new Date(item.dt*1000).toISOString().slice(0,10)`. -/
def owDayIndex (it : OWItem) : Nat := it.dt / 86400

/-- The loop-body updates applied to one day's accumulator for one slot. -/
def owUpd (units : Units) (acc : OWDayAcc) (it : OWItem) : OWDayAcc :=
  { tempsC := acc.tempsC ++ [owTempC units it.temp]
    tempsF := acc.tempsF ++ [owTempF units it.temp]
    totalSlots := acc.totalSlots + 1
    rainSlots := acc.rainSlots + (if truthyNum it.rain3h then 1 else 0)
    snowSlots := acc.snowSlots + (if truthyNum it.snow3h then 1 else 0)
    condText := jsOrStr it.wdesc acc.condText
    icon := jsOrStr it.wicon acc.icon
    code := jsOrInt it.wid acc.code }

/-- Lookup in the insertion-ordered map standing in for the JS object
`byDate` (keys are UTC day indices). -/
def alookup (m : List (Nat × OWDayAcc)) (d : Nat) : Option OWDayAcc :=
  (m.find? (fun p => p.1 == d)).map (fun p => p.2)

/-- Processing of one slot of `d.list`: update the existing day record in
place, or append a fresh one (JS objects keep string keys in insertion
order). -/
def owStep (units : Units) (m : List (Nat × OWDayAcc)) (it : OWItem) :
    List (Nat × OWDayAcc) :=
  let d := owDayIndex it
  match alookup m d with
  | some acc => m.map (fun p => if p.1 == d then (d, owUpd units acc it) else p)
  | none => m ++ [(d, owUpd units {} it)]

/-- `Math.round`: round half toward positive infinity. -/
def jsRound (x : ℚ) : Int := ⌊x + 1 / 2⌋

/-- `Math.max(...l)` over a nonempty list (only applied to nonempty
`tempsC`/`tempsF` in the source). -/
def qMax : List ℚ → ℚ
  | [] => 0
  | x :: xs => xs.foldl max x

/-- `Math.min(...l)` over a nonempty list. -/
def qMin : List ℚ → ℚ
  | [] => 0
  | x :: xs => xs.foldl min x

/-- The per-day output record built from one accumulated `byDate` entry. -/
def owMkDay (d : Nat) (acc : OWDayAcc) : ForecastDay :=
  { date := d
    avgTempC := some (acc.tempsC.sum / acc.tempsC.length)
    avgTempF := some (acc.tempsF.sum / acc.tempsF.length)
    maxTempC := some (qMax acc.tempsC)
    maxTempF := some (qMax acc.tempsF)
    minTempC := some (qMin acc.tempsC)
    minTempF := some (qMin acc.tempsF)
    chanceOfRainPct :=
      if acc.totalSlots ≠ 0
      then some (jsRound ((acc.rainSlots : ℚ) / (acc.totalSlots : ℚ) * 100))
      else none
    chanceOfSnowPct :=
      if acc.totalSlots ≠ 0
      then some (jsRound ((acc.snowSlots : ℚ) / (acc.totalSlots : ℚ) * 100))
      else none
    condition := some
      { text := acc.condText
        iconUrl := if truthyStr acc.icon then acc.icon.map owIconUrl else none
        code := acc.code } }

/-- The `byDate` object after folding the whole slot list. -/
def owByDate (units : Units) (l : List OWItem) : List (Nat × OWDayAcc) :=
  l.foldl (owStep units) []

/-- `Object.keys(byDate).sort().slice(0, days)`: ascending day indices,
truncated to the requested count (lexicographic sort of `"YYYY-MM-DD"`
keys coincides with numeric sort of day indices). -/
def owSortedDates (units : Units) (days : Nat) (l : List OWItem) : List Nat :=
  (((owByDate units l).map Prod.fst).insertionSort (fun a b => a ≤ b)).take days

/-- The bucketed day list produced by `ow.getForecast`. -/
def owForecastDays (units : Units) (days : Nat) (l : List OWItem) :
    List ForecastDay :=
  (owSortedDates units days l).filterMap
    (fun d => (alookup (owByDate units l) d).map (owMkDay d))

/-- The pure normalization step of `ow.getForecast`. -/
def owNormalizeForecast (units : Units) (days : Nat) (d : OWForecastResp) :
    Forecast :=
  let coordName := ratRepr d.city.lat ++ "," ++ ratRepr d.city.lon
  { provider := "openweather"
    location :=
      { name := if truthyStr d.city.name then d.city.name.getD coordName else coordName
        lat := d.city.lat
        lon := d.city.lon
        country := d.city.country }
    days := owForecastDays units days d.list }

/-- `ow.getForecast` with the network as an explicit parameter. -/
def owGetForecastOp (net : OWParams → Units → Except String OWForecastResp)
    (q : LocationQuery) (units : Units) (days : Nat) :
    Except String Forecast × Nat :=
  match resolveQueryParams q with
  | .error e => (.error e, 0)
  | .ok p =>
    match net p units with
    | .error e => (.error e, 1)
    | .ok d => (.ok (owNormalizeForecast units days d), 1)

/-- `ow.getHistorical`: unconditionally `return null` — no query
validation, no network call (`null` modelled as `.ok none`). -/
def owGetHistoricalOp : Except String (Option HistoricalWeather) × Nat :=
  (.ok none, 0)

/-! ## WeatherAPI-style adapter (`weather/providers/weatherApi.ts`) -/

/-- `resolveQuery` from `weatherApi.ts`: `"lat,lon"` when both coordinates
are non-null, else a truthy city (with `",country"` appended when the
country is truthy), else the thrown `InvalidQuery` error. -/
def waResolveQuery (q : LocationQuery) : Except String String :=
  match q.lat, q.lon with
  | some la, some lo => .ok (ratRepr la ++ "," ++ ratRepr lo)
  | _, _ =>
    match q.city with
    | some c =>
      if c ≠ "" then
        .ok (match q.country with
             | some co => if co ≠ "" then c ++ "," ++ co else c
             | none => c)
      else .error "WeatherAPI: provide city or lat/lon"
    | none => .error "WeatherAPI: provide city or lat/lon"

/-- The `current` part of a WeatherAPI response (fields the adapter reads;
`lastUpdated` models the `last_updated` timestamp as epoch seconds). -/
structure WACurrent where
  lastUpdated : Option Nat := none
  tempC : ℚ
  tempF : ℚ
  feelslikeC : ℚ
  feelslikeF : ℚ
  humidity : ℚ
  windKph : ℚ
  windMph : ℚ
  windDir : String
  pressureMb : ℚ
  uv : ℚ
  condText : Option String := none
  condIcon : Option String := none
  condCode : Option Int := none
deriving DecidableEq

/-- A WeatherAPI `/v1/current.json` response. -/
structure WACurrentResp where
  location : WLocation
  current : WACurrent
deriving DecidableEq

/-- The pure normalization step of `wa.getCurrent` (provider tag
`"weatherapi"`; `now` stands in for `new Date()` when `last_updated` is
missing). -/
def waNormalizeCurrent (now : Nat) (d : WACurrentResp) : CurrentWeather :=
  { provider := "weatherapi"
    location := d.location
    observedAt := d.current.lastUpdated.getD now
    temperatureC := d.current.tempC
    temperatureF := d.current.tempF
    feelsLikeC := some d.current.feelslikeC
    feelsLikeF := some d.current.feelslikeF
    humidity := some d.current.humidity
    windKph := some d.current.windKph
    windMph := some d.current.windMph
    windDir := some d.current.windDir
    pressureMb := some d.current.pressureMb
    uv := some d.current.uv
    condition :=
      { text := d.current.condText
        iconUrl := d.current.condIcon
        code := d.current.condCode } }

/-- `wa.getCurrent` with the network as an explicit parameter. -/
def waGetCurrentOp (net : String → Except String WACurrentResp) (now : Nat)
    (q : LocationQuery) : Except String CurrentWeather × Nat :=
  match waResolveQuery q with
  | .error e => (.error e, 0)
  | .ok s =>
    match net s with
    | .error e => (.error e, 1)
    | .ok d => (.ok (waNormalizeCurrent now d), 1)

/-- One pre-bucketed `forecastday` element of a WeatherAPI forecast
response (`date` modelled as UTC day index). -/
structure WAFDay where
  date : Nat
  avgtempC : Option ℚ := none
  avgtempF : Option ℚ := none
  maxtempC : Option ℚ := none
  maxtempF : Option ℚ := none
  mintempC : Option ℚ := none
  mintempF : Option ℚ := none
  dailyChanceOfRain : Option Int := none
  dailyChanceOfSnow : Option Int := none
  condText : Option String := none
  condIcon : Option String := none
  condCode : Option Int := none
deriving DecidableEq

/-- A WeatherAPI `/v1/forecast.json` response
(`forecastdays` is `d.forecast?.forecastday || []`). -/
structure WAForecastResp where
  location : WLocation
  forecastdays : List WAFDay
deriving DecidableEq

/-- Per-day mapping of `wa.getForecast`: the upstream data is already
bucketed daily and is copied field-for-field. -/
def waMkDay (fd : WAFDay) : ForecastDay :=
  { date := fd.date
    avgTempC := fd.avgtempC
    avgTempF := fd.avgtempF
    maxTempC := fd.maxtempC
    maxTempF := fd.maxtempF
    minTempC := fd.mintempC
    minTempF := fd.mintempF
    chanceOfRainPct := fd.dailyChanceOfRain
    chanceOfSnowPct := fd.dailyChanceOfSnow
    condition := some
      { text := fd.condText, iconUrl := fd.condIcon, code := fd.condCode } }

/-- The pure normalization step of `wa.getForecast`. -/
def waNormalizeForecast (d : WAForecastResp) : Forecast :=
  { provider := "weatherapi"
    location := d.location
    days := d.forecastdays.map waMkDay }

/-- `wa.getForecast` with the network as an explicit parameter. -/
def waGetForecastOp (net : String → Nat → Except String WAForecastResp)
    (q : LocationQuery) (days : Nat) : Except String Forecast × Nat :=
  match waResolveQuery q with
  | .error e => (.error e, 0)
  | .ok s =>
    match net s days with
    | .error e => (.error e, 1)
    | .ok d => (.ok (waNormalizeForecast d), 1)

/-- The `forecastday[0].day` summary of a WeatherAPI history response. -/
structure WAHistDay where
  date : Option Nat := none
  avgtempC : Option ℚ := none
  avgtempF : Option ℚ := none
  avghumidity : Option ℚ := none
  maxwindKph : Option ℚ := none
  maxwindMph : Option ℚ := none
  condText : Option String := none
  condIcon : Option String := none
  condCode : Option Int := none
deriving DecidableEq

/-- A WeatherAPI `/v1/history.json` response
(`day` is `d.forecast?.forecastday?.[0]`, `current` is `d.current?`). -/
structure WAHistResp where
  location : WLocation
  day : Option WAHistDay := none
  current : Option WACurrent := none
deriving DecidableEq

/-- The pure normalization step of `wa.getHistorical`, with its
`day?.x ?? d.current?.y ?? fallback` chains. -/
def waNormalizeHistorical (now : Nat) (dateISO : Nat) (d : WAHistResp) :
    HistoricalWeather :=
  let dayDate := d.day.bind (fun x => x.date)
  { date := dayDate.getD dateISO
    current :=
      { provider := "weatherapi"
        location := d.location
        observedAt := (dayDate.map (fun x => x * 86400)).getD now
        temperatureC :=
          ((d.day.bind (fun x => x.avgtempC)).orElse
            (fun _ => d.current.map (fun c => c.tempC))).getD 0
        temperatureF :=
          ((d.day.bind (fun x => x.avgtempF)).orElse
            (fun _ => d.current.map (fun c => c.tempF))).getD 0
        feelsLikeC := d.current.map (fun c => c.feelslikeC)
        feelsLikeF := d.current.map (fun c => c.feelslikeF)
        humidity :=
          (d.day.bind (fun x => x.avghumidity)).orElse
            (fun _ => d.current.map (fun c => c.humidity))
        windKph :=
          (d.day.bind (fun x => x.maxwindKph)).orElse
            (fun _ => d.current.map (fun c => c.windKph))
        windMph :=
          (d.day.bind (fun x => x.maxwindMph)).orElse
            (fun _ => d.current.map (fun c => c.windMph))
        windDir := d.current.map (fun c => c.windDir)
        pressureMb := d.current.map (fun c => c.pressureMb)
        uv := d.current.map (fun c => c.uv)
        condition :=
          { text := d.day.bind (fun x => x.condText)
            iconUrl := d.day.bind (fun x => x.condIcon)
            code := d.day.bind (fun x => x.condCode) } } }

/-- `wa.getHistorical` with the network as an explicit parameter. -/
def waGetHistoricalOp (net : String → Nat → Except String WAHistResp)
    (now : Nat) (q : LocationQuery) (dateISO : Nat) :
    Except String HistoricalWeather × Nat :=
  match waResolveQuery q with
  | .error e => (.error e, 0)
  | .ok s =>
    match net s dateISO with
    | .error e => (.error e, 1)
    | .ok d => (.ok (waNormalizeHistorical now dateISO d), 1)

/-! ## Configuration (`config.ts`) and caches (`lru-cache` uses in
`aggregator.ts`) -/

/-- The configuration fields the core reads (`config.ts`); provider keys
default to `""` and a provider is configured iff its key is truthy. -/
structure Config where
  openWeatherApiKey : String := ""
  weatherApiKey : String := ""
  defaultUnits : Units := .metric
  cacheTtlSeconds : Nat := 600
  forecastCacheTtlSeconds : Nat := 10800
  alertPollIntervalSeconds : Nat := 600
deriving DecidableEq

/-- `if (config.weatherApiKey)`: JS string truthiness. -/
def Config.hasWeatherApi (c : Config) : Bool := !(c.weatherApiKey == "")

/-- `if (config.openWeatherApiKey)`: JS string truthiness. -/
def Config.hasOpenWeather (c : Config) : Bool := !(c.openWeatherApiKey == "")

/-- One stored cache entry (insertion instant in milliseconds). -/
structure CacheEntry (α : Type) where
  value : α
  insertedAt : Nat
deriving DecidableEq

/-- An `lru-cache` store: recency-ordered entries (most recent first),
capacity bound `max`, per-store TTL in milliseconds. -/
structure Cache (α : Type) where
  entries : List (String × CacheEntry α) := []
  maxSize : Nat
  ttl : Nat
deriving DecidableEq

/-- `cache.get(key)`: a hit iff the key is present and the entry is not
stale (`lru-cache` treats an entry as stale iff `now - start > ttl`). -/
def Cache.get {α : Type} (c : Cache α) (now : Nat) (k : String) : Option α :=
  match c.entries.find? (fun p => p.1 == k) with
  | some p => if now - p.2.insertedAt ≤ c.ttl then some p.2.value else none
  | none => none

/-- `cache.set(key, value)`: insert at the most-recent position, replacing
any previous entry for the key, and truncate to capacity (evicting the
least recently inserted entries). -/
def Cache.set {α : Type} (c : Cache α) (now : Nat) (k : String) (v : α) :
    Cache α :=
  { c with
    entries :=
      ((k, ⟨v, now⟩) :: c.entries.filter (fun p => !(p.1 == k))).take c.maxSize }

/-! ## Aggregator (`weather/aggregator.ts`) -/

/-- The provider attempted by one upstream invocation. -/
inductive PCall where
  | wa
  | ow
deriving DecidableEq

/-- The behaviour of the provider adapters as the aggregator sees them
(network effects folded in; a value of this type fixes, for every query,
either the normalized result or the thrown error). -/
structure Providers where
  waCurrent : LocationQuery → Except String CurrentWeather
  waForecast : LocationQuery → Nat → Except String Forecast
  waHistorical : LocationQuery → Nat → Except String HistoricalWeather
  owCurrent : LocationQuery → Units → Except String CurrentWeather
  owForecast : LocationQuery → Units → Nat → Except String Forecast

/-- The terminal error thrown by `getCurrentWeather`/`getForecast` when no
provider produced data. -/
def noProviderMsg : String :=
  "No weather provider available. Please set API keys in .env"

/-- The terminal error thrown by `getHistorical` when no data was
produced. -/
def noHistoricalMsg : String :=
  "Historical data not available with current configuration."

/-- Rendering of `units` inside cache-key extras. -/
def unitsStr (u : Units) : String :=
  match u with
  | .metric => "metric"
  | .imperial => "imperial"

/-- `JSON.stringify({ units })`. -/
def extraUnits (units : Units) : String :=
  "\x7b\x22units\x22:\x22" ++ unitsStr units ++ "\x22\x7d"

/-- `JSON.stringify({ units, days })`. -/
def extraUnitsDays (units : Units) (days : Nat) : String :=
  "\x7b\x22units\x22:\x22" ++ unitsStr units ++ "\x22,\x22days\x22:"
    ++ toString days ++ "\x7d"

/-- `JSON.stringify({ dateISO })` (dates as UTC day indices). -/
def extraDate (dateISO : Nat) : String :=
  "\x7b\x22dateISO\x22:" ++ toString dateISO ++ "\x7d"

instance {ε α : Type} [DecidableEq ε] [DecidableEq α] :
    DecidableEq (Except ε α) := fun x y =>
  match x, y with
  | .ok a, .ok b =>
    if h : a = b then .isTrue (by rw [h])
    else .isFalse (by intro hh; injection hh; exact h (by assumption))
  | .ok _, .error _ => .isFalse (by intro hh; exact Except.noConfusion hh)
  | .error _, .ok _ => .isFalse (by intro hh; exact Except.noConfusion hh)
  | .error e, .error f =>
    if h : e = f then .isTrue (by rw [h])
    else .isFalse (by intro hh; injection hh; exact h (by assumption))

/-- Outcome of one aggregator call: the returned value or thrown error,
the cache state afterwards, and the providers invoked, in order. -/
structure AggOut (α : Type) where
  result : Except String α
  cache : Cache α
  calls : List PCall
deriving DecidableEq

/-- `getCurrentWeather` from `aggregator.ts`: cache lookup; then, when the
WeatherAPI key is truthy, a guarded (`try/catch`) WeatherAPI attempt;
then, when still without data and the OpenWeather key is truthy, an
unguarded OpenWeather attempt (its error propagates); then the terminal
error when no data; on success the result is cached and returned. -/
def getCurrentWeather (cfg : Config) (pv : Providers)
    (cache : Cache CurrentWeather) (now : Nat) (q : LocationQuery)
    (units : Units) : AggOut CurrentWeather :=
  let key := keyOf "current" q (extraUnits units)
  match cache.get now key with
  | some cached => ⟨.ok cached, cache, []⟩
  | none =>
    let attempt1 : Option CurrentWeather × List PCall :=
      if cfg.hasWeatherApi then
        match pv.waCurrent q with
        | .ok d => (some d, [.wa])
        | .error _ => (none, [.wa])
      else (none, [])
    match attempt1 with
    | (some d, cs) => ⟨.ok d, cache.set now key d, cs⟩
    | (none, cs) =>
      if cfg.hasOpenWeather then
        match pv.owCurrent q units with
        | .ok d => ⟨.ok d, cache.set now key d, cs ++ [.ow]⟩
        | .error e => ⟨.error e, cache, cs ++ [.ow]⟩
      else ⟨.error noProviderMsg, cache, cs⟩

/-- `getForecast` from `aggregator.ts`: same shape as `getCurrentWeather`
with the forecast cache and the day count in the key. -/
def getForecast (cfg : Config) (pv : Providers) (cache : Cache Forecast)
    (now : Nat) (q : LocationQuery) (units : Units) (days : Nat) :
    AggOut Forecast :=
  let key := keyOf "forecast" q (extraUnitsDays units days)
  match cache.get now key with
  | some cached => ⟨.ok cached, cache, []⟩
  | none =>
    let attempt1 : Option Forecast × List PCall :=
      if cfg.hasWeatherApi then
        match pv.waForecast q days with
        | .ok d => (some d, [.wa])
        | .error _ => (none, [.wa])
      else (none, [])
    match attempt1 with
    | (some d, cs) => ⟨.ok d, cache.set now key d, cs⟩
    | (none, cs) =>
      if cfg.hasOpenWeather then
        match pv.owForecast q units days with
        | .ok d => ⟨.ok d, cache.set now key d, cs ++ [.ow]⟩
        | .error e => ⟨.error e, cache, cs ++ [.ow]⟩
      else ⟨.error noProviderMsg, cache, cs⟩

/-- `getHistorical` from `aggregator.ts`: cache lookup; a guarded
WeatherAPI attempt when its key is truthy; the OpenWeather adapter is
never consulted; terminal error when no data. -/
def getHistorical (cfg : Config) (pv : Providers)
    (cache : Cache HistoricalWeather) (now : Nat) (q : LocationQuery)
    (dateISO : Nat) : AggOut HistoricalWeather :=
  let key := keyOf "historical" q (extraDate dateISO)
  match cache.get now key with
  | some cached => ⟨.ok cached, cache, []⟩
  | none =>
    let attempt1 : Option HistoricalWeather × List PCall :=
      if cfg.hasWeatherApi then
        match pv.waHistorical q dateISO with
        | .ok d => (some d, [.wa])
        | .error _ => (none, [.wa])
      else (none, [])
    match attempt1 with
    | (some d, cs) => ⟨.ok d, cache.set now key d, cs⟩
    | (none, cs) => ⟨.error noHistoricalMsg, cache, cs⟩

/-! ## Alert service (`alerts/alertService.ts`) -/

/-- `sensitivity` values. -/
inductive Sensitivity where
  | low
  | medium
  | high
deriving DecidableEq

/-- `AlertConditionType`. -/
inductive AlertConditionType where
  | rain
  | temp_above
  | temp_below
  | wind_above
deriving DecidableEq

/-- `WeatherAlertCondition`. -/
structure WeatherAlertCondition where
  type : AlertConditionType
  threshold : Option ℚ := none
  daysAhead : Option Nat := none
deriving DecidableEq

/-- `AlertChannel`. -/
inductive AlertChannel where
  | console
  | webhook
deriving DecidableEq

/-- `WeatherAlert` (timestamps as epoch values). -/
structure WeatherAlert where
  id : String
  name : Option String := none
  location : LocationQuery
  condition : WeatherAlertCondition
  channel : AlertChannel
  webhookUrl : Option String := none
  sensitivity : Option Sensitivity := none
  createdAt : Nat
  lastTriggeredAt : Option Nat := none
deriving DecidableEq

/-- `Omit<WeatherAlert, "id" | "createdAt">`: the caller-supplied part of a
registration. -/
structure AlertInput where
  name : Option String := none
  location : LocationQuery
  condition : WeatherAlertCondition
  channel : AlertChannel
  webhookUrl : Option String := none
  sensitivity : Option Sensitivity := none
  lastTriggeredAt : Option Nat := none
deriving DecidableEq

/-- The in-process registry: a JS `Map` in insertion order. -/
abbrev AlertRegistry : Type := List (String × WeatherAlert)

/-- `Map.set`: replace in place when the key exists, else append. -/
def mapSet (m : AlertRegistry) (k : String) (v : WeatherAlert) :
    AlertRegistry :=
  if (m.map Prod.fst).contains k
  then m.map (fun p => if p.1 == k then (k, v) else p)
  else m ++ [(k, v)]

/-- `listAlerts`: the registry's values in insertion order. -/
def listAlerts (m : AlertRegistry) : List WeatherAlert :=
  m.map (fun p => p.2)

/-- `removeAlert`: delete by id, reporting whether anything was removed. -/
def removeAlert (m : AlertRegistry) (id : String) : Bool × AlertRegistry :=
  ((m.map Prod.fst).contains id, m.filter (fun p => !(p.1 == id)))

/-- `registerAlert`: build the full record with the fresh id (`generateId`
modelled as a parameter) and creation instant, store it with no
validation, and return it. -/
def registerAlert (m : AlertRegistry) (id : String) (now : Nat)
    (a : AlertInput) : WeatherAlert × AlertRegistry :=
  let full : WeatherAlert :=
    { id := id
      name := a.name
      location := a.location
      condition := a.condition
      channel := a.channel
      webhookUrl := a.webhookUrl
      sensitivity := a.sensitivity
      createdAt := now
      lastTriggeredAt := a.lastTriggeredAt }
  (full, mapSet m id full)

/-- A notification side effect. -/
inductive Dispatch where
  | consoleLog (message : String)
  | webhookPost (url : String) (message : String)
deriving DecidableEq

/-- `notify`: stamp `lastTriggeredAt`, then dispatch per channel; a webhook
alert without a `webhookUrl` dispatches nothing; webhook POST failures
are swallowed (not modelled as observable). -/
def notify (now : Nat) (alert : WeatherAlert) (message : String) :
    WeatherAlert × List Dispatch :=
  let a := { alert with lastTriggeredAt := some now }
  match a.channel, a.webhookUrl with
  | .console, _ => (a, [.consoleLog message])
  | .webhook, some url => (a, [.webhookPost url message])
  | .webhook, none => (a, [])

/-- `adjustThreshold`: `high` ↦ ×0.9, `low` ↦ ×1.1, `medium`/absent ↦
unchanged. -/
def adjustThreshold (base : ℚ) (sensitivity : Option Sensitivity) : ℚ :=
  match sensitivity with
  | none => base
  | some .medium => base
  | some .high => base * (9 / 10)
  | some .low => base * (11 / 10)

/-- `JSON.stringify` of a normalized location record. -/
def stringifyWLoc (l : WLocation) : String :=
  "\x7b\x22name\x22:\x22" ++ l.name ++ "\x22,\x22lat\x22:" ++ ratRepr l.lat
    ++ ",\x22lon\x22:" ++ ratRepr l.lon
    ++ (match l.country with
        | some c => ",\x22country\x22:\x22" ++ c ++ "\x22"
        | none => "")
    ++ "\x7d"

/-- Notification message for a tripped rain alert. -/
def rainMsg (days : Nat) (loc : WLocation) : String :=
  "Rain expected within " ++ toString days ++ " day(s) at " ++ stringifyWLoc loc

/-- Notification message for a tripped `temp_above` alert. -/
def tempAboveMsg (th : ℚ) (nm : String) : String :=
  "Temperature above " ++ ratRepr th ++ "°C at " ++ nm

/-- Notification message for a tripped `temp_below` alert. -/
def tempBelowMsg (th : ℚ) (nm : String) : String :=
  "Temperature below " ++ ratRepr th ++ "°C at " ++ nm

/-- Notification message for a tripped `wind_above` alert. -/
def windAboveMsg (th : ℚ) (nm : String) : String :=
  "Wind speed above " ++ ratRepr th ++ " kph at " ++ nm

/-- `evaluateAlert`, with the aggregator fetches as explicit behaviours:
`rain` checks the forecast's per-day rain chance against the adjusted
constant 50; the three threshold conditions check current conditions
against the adjusted threshold and silently do nothing when `threshold`
is absent; a fetch failure propagates (to be caught by `pollAlerts`). -/
def evaluateAlert (now : Nat)
    (fetchForecast : LocationQuery → Nat → Except String Forecast)
    (fetchCurrent : LocationQuery → Except String CurrentWeather)
    (alert : WeatherAlert) : Except String (WeatherAlert × List Dispatch) :=
  let cond := alert.condition
  match cond.type with
  | .rain =>
    let days := cond.daysAhead.getD 1
    match fetchForecast alert.location days with
    | .error e => .error e
    | .ok forecast =>
      let raining := forecast.days.any (fun d =>
        decide (((d.chanceOfRainPct.getD 0 : Int) : ℚ) ≥
          adjustThreshold 50 alert.sensitivity))
      if raining
      then .ok (notify now alert (rainMsg days forecast.location))
      else .ok (alert, [])
  | _ =>
    match fetchCurrent alert.location with
    | .error e => .error e
    | .ok current =>
      match cond.type, cond.threshold with
      | .temp_above, some t =>
        let th := adjustThreshold t alert.sensitivity
        if current.temperatureC ≥ th
        then .ok (notify now alert (tempAboveMsg th current.location.name))
        else .ok (alert, [])
      | .temp_below, some t =>
        let th := adjustThreshold t alert.sensitivity
        if current.temperatureC ≤ th
        then .ok (notify now alert (tempBelowMsg th current.location.name))
        else .ok (alert, [])
      | .wind_above, some t =>
        let th := adjustThreshold t alert.sensitivity
        let wind := current.windKph.getD 0
        if wind ≥ th
        then .ok (notify now alert (windAboveMsg th current.location.name))
        else .ok (alert, [])
      | _, _ => .ok (alert, [])

/-- `pollAlerts`: one sweep over the registered alerts; a failure
evaluating one alert is caught and logged, leaving that alert unchanged
with nothing dispatched. -/
def pollAlerts (now : Nat)
    (fetchForecast : LocationQuery → Nat → Except String Forecast)
    (fetchCurrent : LocationQuery → Except String CurrentWeather)
    (reg : List WeatherAlert) : List (WeatherAlert × List Dispatch) :=
  reg.map (fun a =>
    match evaluateAlert now fetchForecast fetchCurrent a with
    | .ok r => r
    | .error _ => (a, []))

/-! ## Derived predicates used by the verification statements -/

/-- A location query that resolves to neither addressing mode: no complete
lat/lon pair and no truthy city. -/
def resolvesNeither (q : LocationQuery) : Bool :=
  !(q.lat.isSome && q.lon.isSome) && !truthyStr q.city

/-- Whether one alert evaluation tripped (dispatched at least one
notification). -/
def tripped (r : Except String (WeatherAlert × List Dispatch)) : Bool :=
  match r with
  | .ok (_, ds) => !ds.isEmpty
  | .error _ => false

/-! ## Concrete fixtures for witnesses and counterexamples -/

/-- A well-formed city query. -/
def qParis : LocationQuery := { city := some "Paris" }

/-- A normalized current-weather record as a fixture value. -/
def w0 : CurrentWeather :=
  { provider := "openweather"
    location := { name := "Paris", lat := 48, lon := 2, country := some "FR" }
    observedAt := 1700000000
    temperatureC := 20
    temperatureF := 68
    condition := { text := some "clear" } }

/-- Configuration with no provider key set. -/
def cfgNone : Config := {}

/-- Configuration with both provider keys set. -/
def cfgBoth : Config := { openWeatherApiKey := "owkey", weatherApiKey := "wakey" }

/-- Configuration with only the WeatherAPI key set. -/
def cfgWaOnly : Config := { weatherApiKey := "wakey" }

/-- An empty current-conditions cache with the source's defaults
(max 500 entries, TTL 600 s in milliseconds). -/
def emptyCurrentCache : Cache CurrentWeather := { maxSize := 500, ttl := 600000 }

/-- An empty forecast cache (max 500 entries, TTL 10800 s). -/
def emptyForecastCache : Cache Forecast := { maxSize := 500, ttl := 10800000 }

/-- An empty historical cache (max 500 entries, TTL 600 s). -/
def emptyHistCache : Cache HistoricalWeather := { maxSize := 500, ttl := 600000 }

/-- Provider behaviours where every adapter call fails. -/
def pvBase : Providers :=
  { waCurrent := fun _ => .error "weatherapi down"
    waForecast := fun _ _ => .error "weatherapi down"
    waHistorical := fun _ _ => .error "weatherapi down"
    owCurrent := fun _ _ => .error "openweather down"
    owForecast := fun _ _ _ => .error "openweather down" }

/-- WeatherAPI failing, OpenWeather succeeding with `w0`. -/
def pvWaFailOwOk : Providers := { pvBase with owCurrent := fun _ _ => .ok w0 }

/-- A rain alert on the console channel with the given sensitivity. -/
def rainAlertOf (s : Option Sensitivity) : WeatherAlert :=
  { id := "rain1", location := qParis, condition := { type := .rain }
    channel := .console, sensitivity := s, createdAt := 0 }

/-- A `temp_above` alert with threshold 30 and the given sensitivity. -/
def tempAboveAlertOf (s : Option Sensitivity) : WeatherAlert :=
  { id := "temp1", location := qParis
    condition := { type := .temp_above, threshold := some 30 }
    channel := .console, sensitivity := s, createdAt := 0 }

/-- A current-weather record reporting 28 °C. -/
def current28 : CurrentWeather :=
  { provider := "weatherapi"
    location := { name := "Paris", lat := 48, lon := 2 }
    observedAt := 0, temperatureC := 28, temperatureF := 82
    condition := { text := some "Sunny" } }

/-- A `wind_above` alert whose threshold is absent. -/
def alertNoThr : WeatherAlert :=
  { id := "wind1", location := qParis, condition := { type := .wind_above }
    channel := .console, createdAt := 0 }

/-- A registration input on the webhook channel with no webhook URL. -/
def badWebhookInput : AlertInput :=
  { location := qParis, condition := { type := .rain }, channel := .webhook
    webhookUrl := none }

/-- An upstream OpenWeather current-conditions response as a fixture. -/
def owResp0 : OWCurrentResp :=
  { name := some "Paris", coordLat := 48, coordLon := 2
    sysCountry := some "FR", dt := 1700000000, temp := 21, feelsLike := 20
    humidity := 50, pressure := 1013, windSpeed := 5 }

/-- WeatherAPI failing, OpenWeather answering with the real adapter's
normalization of `owResp0`. -/
def pvWaFailOwNorm : Providers :=
  { pvBase with owCurrent := fun _ u => .ok (owNormalizeCurrent u owResp0) }

/-- The sub-daily samples of one calendar day in a slot list. -/
def daySamples (l : List OWItem) (d : Nat) : List OWItem :=
  l.filter (fun it => owDayIndex it == d)

/-- One day's sample temperatures in Celsius. -/
def dayTempsC (units : Units) (l : List OWItem) (d : Nat) : List ℚ :=
  (daySamples l d).map (fun it => owTempC units it.temp)

/-- One day's sample temperatures in Fahrenheit. -/
def dayTempsF (units : Units) (l : List OWItem) (d : Nat) : List ℚ :=
  (daySamples l d).map (fun it => owTempF units it.temp)

/-- The spec's bucketing example: day 0 has 4 slots of which 2 are
rain-flagged; day 1 has 2 slots with none. -/
def exampleSlots : List OWItem :=
  [ { dt := 0, temp := 20, rain3h := some 1 },
    { dt := 10800, temp := 22 },
    { dt := 21600, temp := 24, rain3h := some 2 },
    { dt := 32400, temp := 26 },
    { dt := 86400, temp := 10 },
    { dt := 97200, temp := 12 } ]

instance : Inhabited ForecastDay := ⟨{ date := 0 }⟩

/-- The first bucketed day of the example forecast. -/
def fdEx : ForecastDay := (owForecastDays .metric 3 exampleSlots).headI

/-! ## Claims -/

/-- Setting a key and reading it back within the TTL window hits, provided
the store has positive capacity. -/
theorem cache_get_set_fresh {α : Type} (c : Cache α) (t1 t2 : Nat)
    (k : String) (v : α) (hcap : 0 < c.maxSize) (h : t2 - t1 ≤ c.ttl) :
    (c.set t1 k v).get t2 k = some v := by
  unfold Cache.set Cache.get
  obtain ⟨n, hn⟩ : ∃ n, c.maxSize = n + 1 := ⟨c.maxSize - 1, by omega⟩
  simp [hn, List.find?, h]

/-- C1 (amended): on a cache miss, a WeatherAPI failure is absorbed by the
fallback and never surfaces; the only errors `getCurrentWeather` and
`getForecast` can raise are the terminal `NoProviderAvailable` message or
the error of the unguarded OpenWeather fallback call, and the only error
`getHistorical` can raise is its terminal message. -/
theorem aggregator_error_boundary_c1 (cfg : Config) (pv : Providers)
    (cacheC : Cache CurrentWeather) (cacheF : Cache Forecast)
    (cacheH : Cache HistoricalWeather) (now : Nat) (q : LocationQuery)
    (units : Units) (days dateISO : Nat) (e : String) :
    ((getCurrentWeather cfg pv cacheC now q units).result = .error e →
      e = noProviderMsg ∨ (cfg.hasOpenWeather = true ∧ pv.owCurrent q units = .error e))
    ∧ ((getForecast cfg pv cacheF now q units days).result = .error e →
      e = noProviderMsg ∨ (cfg.hasOpenWeather = true ∧ pv.owForecast q units days = .error e))
    ∧ ((getHistorical cfg pv cacheH now q dateISO).result = .error e →
      e = noHistoricalMsg) := by
  refine ⟨?_, ?_, ?_⟩
  · intro h
    cases hm : cacheC.get now (keyOf "current" q (extraUnits units))
    · cases hwa : cfg.hasWeatherApi
      · cases how : cfg.hasOpenWeather
        · simp_all [getCurrentWeather]
        · cases hov : pv.owCurrent q units <;> simp_all [getCurrentWeather]
      · cases hwc : pv.waCurrent q
        · cases how : cfg.hasOpenWeather
          · simp_all [getCurrentWeather]
          · cases hov : pv.owCurrent q units <;> simp_all [getCurrentWeather]
        · simp_all [getCurrentWeather]
    · simp_all [getCurrentWeather]
  · intro h
    cases hm : cacheF.get now (keyOf "forecast" q (extraUnitsDays units days))
    · cases hwa : cfg.hasWeatherApi
      · cases how : cfg.hasOpenWeather
        · simp_all [getForecast]
        · cases hov : pv.owForecast q units days <;> simp_all [getForecast]
      · cases hwc : pv.waForecast q days
        · cases how : cfg.hasOpenWeather
          · simp_all [getForecast]
          · cases hov : pv.owForecast q units days <;> simp_all [getForecast]
        · simp_all [getForecast]
    · simp_all [getForecast]
  · intro h
    cases hm : cacheH.get now (keyOf "historical" q (extraDate dateISO))
    · cases hwa : cfg.hasWeatherApi
      · simp_all [getHistorical]
      · cases hwc : pv.waHistorical q dateISO <;> simp_all [getHistorical]
    · simp_all [getHistorical]

/-- C1 counterexample: with both providers configured, a WeatherAPI failure
followed by an OpenWeather failure surfaces the OpenWeather adapter's own
error to the caller — neither a success nor the terminal
`NoProviderAvailable` message. -/
theorem aggregator_error_boundary_c1_cex :
    (getCurrentWeather cfgBoth pvBase emptyCurrentCache 0 qParis .metric).result
      = .error "openweather down"
    ∧ "openweather down" ≠ noProviderMsg := by decide

/-- C1 witness: the amended boundary instantiated on both failure
scenarios. -/
theorem aggregator_error_boundary_c1_wit :
    ("openweather down" = noProviderMsg
      ∨ (cfgBoth.hasOpenWeather = true
          ∧ pvBase.owCurrent qParis .metric = .error "openweather down"))
    ∧ ("openweather down" = noProviderMsg
      ∨ (cfgBoth.hasOpenWeather = true
          ∧ pvBase.owForecast qParis .metric 3 = .error "openweather down"))
    ∧ noHistoricalMsg = noHistoricalMsg := by
  have h1 := (aggregator_error_boundary_c1 cfgBoth pvBase emptyCurrentCache
    emptyForecastCache emptyHistCache 0 qParis .metric 3 19000
    "openweather down").1 (by decide)
  have h2 := (aggregator_error_boundary_c1 cfgBoth pvBase emptyCurrentCache
    emptyForecastCache emptyHistCache 0 qParis .metric 3 19000
    "openweather down").2.1 (by decide)
  have h3 := (aggregator_error_boundary_c1 cfgNone pvBase emptyCurrentCache
    emptyForecastCache emptyHistCache 0 qParis .metric 3 19000
    noHistoricalMsg).2.2 (by decide)
  exact ⟨h1, h2, h3⟩

/-- C3: sensitivity scales thresholds by 0.9 (`high`) and 1.1 (`low`) and
leaves them unchanged for `medium`/absent; the same adjustment is applied
to the fixed rain-chance constant 50; and the spec's worked example — a
`temp_above` alert with threshold 30 trips at 28 °C under `high`
sensitivity (adjusted threshold 27) but not under `low` (adjusted
threshold 33). -/
theorem alert_sensitivity_c3 :
    (∀ b : ℚ, adjustThreshold b (some .high) = b * (9 / 10)
      ∧ adjustThreshold b (some .low) = b * (11 / 10)
      ∧ adjustThreshold b (some .medium) = b
      ∧ adjustThreshold b none = b)
    ∧ (∀ (s : Option Sensitivity) (fc : Forecast) (now : Nat),
        tripped (evaluateAlert now (fun _ _ => .ok fc) (fun _ => .error "unused")
          (rainAlertOf s))
          = fc.days.any (fun d =>
              decide (((d.chanceOfRainPct.getD 0 : Int) : ℚ) ≥ adjustThreshold 50 s)))
    ∧ (evaluateAlert 5 (fun _ _ => .error "unused") (fun _ => .ok current28)
        (tempAboveAlertOf (some .high))
        = .ok ({ tempAboveAlertOf (some .high) with lastTriggeredAt := some 5 },
               [Dispatch.consoleLog
                  (tempAboveMsg (adjustThreshold 30 (some .high)) "Paris")]))
    ∧ (evaluateAlert 5 (fun _ _ => .error "unused") (fun _ => .ok current28)
        (tempAboveAlertOf (some .low))
        = .ok (tempAboveAlertOf (some .low), [])) := by
  refine ⟨fun b => ⟨rfl, rfl, rfl, rfl⟩, ?_, ?_, ?_⟩
  · intro s fc now
    simp only [evaluateAlert, rainAlertOf]
    split <;> simp_all [tripped, notify, rainAlertOf]
  · have hth : adjustThreshold 30 (some .high) ≤ 28 := by
      norm_num [adjustThreshold]
    simp [evaluateAlert, tempAboveAlertOf, hth, notify, current28, qParis]
  · have hth : ¬ (adjustThreshold 30 (some .low) ≤ 28) := by
      norm_num [adjustThreshold]
    simp [evaluateAlert, tempAboveAlertOf, hth, current28, qParis]

/-- C4 (amended): after a first `getCurrent` call that missed the cache and
succeeded, a second call with identical arguments within the TTL window
returns the identical record, leaves the cache unchanged, and invokes no
provider adapter — so the upstream calls across the two calls are exactly
those of the first call. -/
theorem cache_idempotence_c4 (cfg : Config) (pv : Providers)
    (cache : Cache CurrentWeather) (t1 t2 : Nat) (q : LocationQuery)
    (units : Units) (w : CurrentWeather)
    (hmiss : cache.get t1 (keyOf "current" q (extraUnits units)) = none)
    (hok : (getCurrentWeather cfg pv cache t1 q units).result = .ok w)
    (hcap : 0 < cache.maxSize)
    (httl : t2 - t1 ≤ cache.ttl) :
    getCurrentWeather cfg pv (getCurrentWeather cfg pv cache t1 q units).cache
        t2 q units
      = ⟨.ok w, (getCurrentWeather cfg pv cache t1 q units).cache, []⟩ := by
  have hgs := cache_get_set_fresh cache t1 t2
    (keyOf "current" q (extraUnits units)) w hcap httl
  cases hwa : cfg.hasWeatherApi
  · cases how : cfg.hasOpenWeather
    · simp [getCurrentWeather, hmiss, hwa, how] at hok
    · cases hov : pv.owCurrent q units with
      | error e => simp [getCurrentWeather, hmiss, hwa, how, hov] at hok
      | ok d =>
        simp only [getCurrentWeather, hmiss, hwa, how, hov] at hok ⊢
        simp at hok
        subst hok
        simp [hgs]
  · cases hwc : pv.waCurrent q with
    | ok d =>
      simp only [getCurrentWeather, hmiss, hwa, hwc] at hok ⊢
      simp at hok
      subst hok
      simp [hgs]
    | error e =>
      cases how : cfg.hasOpenWeather
      · simp [getCurrentWeather, hmiss, hwa, hwc, how] at hok
      · cases hov : pv.owCurrent q units with
        | error e2 => simp [getCurrentWeather, hmiss, hwa, hwc, how, hov] at hok
        | ok d =>
          simp only [getCurrentWeather, hmiss, hwa, hwc, how, hov] at hok ⊢
          simp at hok
          subst hok
          simp [hgs]

/-- C4 counterexample: when the first call succeeds by falling back
(WeatherAPI fails, OpenWeather succeeds), the two calls together issue two
upstream calls, not exactly one — the second call still issues none. -/
theorem cache_idempotence_c4_cex :
    (getCurrentWeather cfgBoth pvWaFailOwOk emptyCurrentCache 0 qParis
      .metric).result = .ok w0
    ∧ (getCurrentWeather cfgBoth pvWaFailOwOk
        (getCurrentWeather cfgBoth pvWaFailOwOk emptyCurrentCache 0 qParis
          .metric).cache 1000 qParis .metric).calls = []
    ∧ ((getCurrentWeather cfgBoth pvWaFailOwOk emptyCurrentCache 0 qParis
          .metric).calls
        ++ (getCurrentWeather cfgBoth pvWaFailOwOk
            (getCurrentWeather cfgBoth pvWaFailOwOk emptyCurrentCache 0 qParis
              .metric).cache 1000 qParis .metric).calls).length ≠ 1 := by
  decide

/-- C4 witness: the amended idempotence instantiated on a concrete
fallback state. -/
theorem cache_idempotence_c4_wit :
    emptyCurrentCache.get 0 (keyOf "current" qParis (extraUnits .metric)) = none
    ∧ (getCurrentWeather cfgBoth pvWaFailOwOk emptyCurrentCache 0 qParis
        .metric).result = .ok w0
    ∧ getCurrentWeather cfgBoth pvWaFailOwOk
        (getCurrentWeather cfgBoth pvWaFailOwOk emptyCurrentCache 0 qParis
          .metric).cache 1000 qParis .metric
      = ⟨.ok w0,
         (getCurrentWeather cfgBoth pvWaFailOwOk emptyCurrentCache 0 qParis
           .metric).cache, []⟩ :=
  ⟨by decide, by decide,
   cache_idempotence_c4 cfgBoth pvWaFailOwOk emptyCurrentCache 0 1000 qParis
     .metric w0 (by decide) (by decide) (by decide) (by decide)⟩

/-- C5 (amended): with zero providers configured `getCurrent` fails with
the terminal `NoProviderAvailable` message and issues zero upstream calls;
but the same message — the identical error value — is produced when a
configured provider list is exhausted by failures, so the terminal failure
does not distinguish the two cases. -/
theorem no_provider_terminal_c5 (cfg cfg2 : Config) (pv pv2 : Providers)
    (cache cache2 : Cache CurrentWeather) (now now2 : Nat)
    (q q2 : LocationQuery) (units units2 : Units) (err : String)
    (h1 : cfg.weatherApiKey = "") (h2 : cfg.openWeatherApiKey = "")
    (hmiss : cache.get now (keyOf "current" q (extraUnits units)) = none)
    (g1 : cfg2.hasWeatherApi = true) (g2 : cfg2.openWeatherApiKey = "")
    (gmiss : cache2.get now2 (keyOf "current" q2 (extraUnits units2)) = none)
    (gfail : pv2.waCurrent q2 = .error err) :
    getCurrentWeather cfg pv cache now q units = ⟨.error noProviderMsg, cache, []⟩
    ∧ getCurrentWeather cfg2 pv2 cache2 now2 q2 units2
        = ⟨.error noProviderMsg, cache2, [.wa]⟩ := by
  constructor
  · simp [getCurrentWeather, hmiss, Config.hasWeatherApi, Config.hasOpenWeather,
      h1, h2]
  · simp [getCurrentWeather, gmiss, g1, gfail, Config.hasOpenWeather, g2]

/-- C5 counterexample: the terminal failure for "no provider configured"
and for "the configured provider failed" is one and the same error value,
so the caller cannot distinguish the two cases. -/
theorem no_provider_terminal_c5_cex :
    (getCurrentWeather cfgNone pvBase emptyCurrentCache 0 qParis .metric).result
      = (getCurrentWeather cfgWaOnly pvBase emptyCurrentCache 0 qParis
          .metric).result
    ∧ (getCurrentWeather cfgNone pvBase emptyCurrentCache 0 qParis .metric).result
      = .error noProviderMsg := by decide

/-- C5 witness: the amended terminal behaviour instantiated concretely. -/
theorem no_provider_terminal_c5_wit :
    getCurrentWeather cfgNone pvBase emptyCurrentCache 0 qParis .metric
      = ⟨.error noProviderMsg, emptyCurrentCache, []⟩
    ∧ getCurrentWeather cfgWaOnly pvBase emptyCurrentCache 0 qParis .metric
      = ⟨.error noProviderMsg, emptyCurrentCache, [.wa]⟩ :=
  no_provider_terminal_c5 cfgNone cfgWaOnly pvBase pvBase emptyCurrentCache
    emptyCurrentCache 0 0 qParis qParis .metric .metric "weatherapi down"
    (by decide) (by decide) (by decide) (by decide) (by decide) (by decide)
    (by decide)

/-- C6: with both providers configured, on a cache miss where WeatherAPI
fails and OpenWeather succeeds, `getCurrent` returns OpenWeather's
normalized result — tagged `"openweather"` — caches it, and the WeatherAPI
failure never reaches the caller. -/
theorem fallback_ordering_c6 (cfg : Config) (pv : Providers)
    (cache : Cache CurrentWeather) (now : Nat) (q : LocationQuery)
    (units : Units) (err : String) (d : OWCurrentResp)
    (h1 : cfg.hasWeatherApi = true) (h2 : cfg.hasOpenWeather = true)
    (hmiss : cache.get now (keyOf "current" q (extraUnits units)) = none)
    (hwa : pv.waCurrent q = .error err)
    (how : pv.owCurrent q units = .ok (owNormalizeCurrent units d)) :
    getCurrentWeather cfg pv cache now q units
      = ⟨.ok (owNormalizeCurrent units d),
         cache.set now (keyOf "current" q (extraUnits units))
           (owNormalizeCurrent units d),
         [.wa, .ow]⟩
    ∧ (owNormalizeCurrent units d).provider = "openweather" := by
  constructor
  · simp [getCurrentWeather, hmiss, h1, h2, hwa, how]
  · rfl

/-- C6 witness: the fallback ordering instantiated on a concrete state. -/
theorem fallback_ordering_c6_wit :
    getCurrentWeather cfgBoth pvWaFailOwNorm emptyCurrentCache 0 qParis .metric
      = ⟨.ok (owNormalizeCurrent .metric owResp0),
         emptyCurrentCache.set 0 (keyOf "current" qParis (extraUnits .metric))
           (owNormalizeCurrent .metric owResp0),
         [.wa, .ow]⟩
    ∧ (owNormalizeCurrent .metric owResp0).provider = "openweather" :=
  fallback_ordering_c6 cfgBoth pvWaFailOwNorm emptyCurrentCache 0 qParis
    .metric "weatherapi down" owResp0 (by decide) (by decide) (by decide)
    rfl rfl

/-- C7 (amended): a query resolving to neither addressing mode makes all
five query-taking adapter operations fail with the adapter's
`InvalidQuery` error and zero outbound calls; the OpenWeather historical
operation, however, ignores the query and returns `null`. -/
theorem invalid_query_c7 (q : LocationQuery)
    (h : resolvesNeither q = true) :
    waResolveQuery q = .error "WeatherAPI: provide city or lat/lon"
    ∧ resolveQueryParams q = .error "OpenWeather: provide city or lat/lon"
    ∧ (∀ net now, waGetCurrentOp net now q
        = (.error "WeatherAPI: provide city or lat/lon", 0))
    ∧ (∀ net days, waGetForecastOp net q days
        = (.error "WeatherAPI: provide city or lat/lon", 0))
    ∧ (∀ net now dateISO, waGetHistoricalOp net now q dateISO
        = (.error "WeatherAPI: provide city or lat/lon", 0))
    ∧ (∀ net units, owGetCurrentOp net q units
        = (.error "OpenWeather: provide city or lat/lon", 0))
    ∧ (∀ net units days, owGetForecastOp net q units days
        = (.error "OpenWeather: provide city or lat/lon", 0)) := by
  have hwa : waResolveQuery q = .error "WeatherAPI: provide city or lat/lon" := by
    unfold resolvesNeither truthyStr at h
    unfold waResolveQuery
    rcases q with ⟨city, country, lat, lon⟩
    cases lat <;> cases lon <;> cases city <;> simp_all
  have how : resolveQueryParams q
      = .error "OpenWeather: provide city or lat/lon" := by
    unfold resolvesNeither truthyStr at h
    unfold resolveQueryParams
    rcases q with ⟨city, country, lat, lon⟩
    cases lat <;> cases lon <;> cases city <;> simp_all
  refine ⟨hwa, how, ?_, ?_, ?_, ?_, ?_⟩ <;> intros <;>
    simp [waGetCurrentOp, waGetForecastOp, waGetHistoricalOp, owGetCurrentOp,
      owGetForecastOp, hwa, how]

/-- C7 counterexample: the empty query resolves to neither mode, yet the
OpenWeather historical operation succeeds with `null` instead of failing
with `InvalidQuery`. -/
theorem invalid_query_c7_cex :
    resolvesNeither {} = true
    ∧ owGetHistoricalOp.1 = .ok none
    ∧ owGetHistoricalOp ≠ (.error "OpenWeather: provide city or lat/lon", 0) := by
  decide

/-- C7 witness: the amended rejection instantiated on the empty query. -/
theorem invalid_query_c7_wit :
    waGetCurrentOp (fun _ => .error "net") 0 {}
      = (.error "WeatherAPI: provide city or lat/lon", 0)
    ∧ waGetForecastOp (fun _ _ => .error "net") {} 3
      = (.error "WeatherAPI: provide city or lat/lon", 0)
    ∧ waGetHistoricalOp (fun _ _ => .error "net") 0 {} 19000
      = (.error "WeatherAPI: provide city or lat/lon", 0)
    ∧ owGetCurrentOp (fun _ _ => .error "net") {} .metric
      = (.error "OpenWeather: provide city or lat/lon", 0)
    ∧ owGetForecastOp (fun _ _ => .error "net") {} .metric 3
      = (.error "OpenWeather: provide city or lat/lon", 0) := by
  have h := invalid_query_c7 {} (by decide)
  exact ⟨h.2.2.1 _ _, h.2.2.2.1 _ _, h.2.2.2.2.1 _ _ _, h.2.2.2.2.2.1 _ _,
    h.2.2.2.2.2.2 _ _ _⟩

/-- C9: on a cache miss, `getHistorical` never invokes the OpenWeather
adapter; when the WeatherAPI key is absent, or its call fails, it fails
terminally even if OpenWeather is configured; and the OpenWeather
historical function unconditionally returns `null` without fetching. -/
theorem historical_wa_only_c9 (cfg : Config) (pv : Providers)
    (cache : Cache HistoricalWeather) (now : Nat) (q : LocationQuery)
    (dateISO : Nat)
    (hmiss : cache.get now (keyOf "historical" q (extraDate dateISO)) = none) :
    PCall.ow ∉ (getHistorical cfg pv cache now q dateISO).calls
    ∧ (cfg.hasWeatherApi = false →
        getHistorical cfg pv cache now q dateISO
          = ⟨.error noHistoricalMsg, cache, []⟩)
    ∧ (∀ err, pv.waHistorical q dateISO = .error err →
        getHistorical cfg pv cache now q dateISO
          = ⟨.error noHistoricalMsg, cache,
             if cfg.hasWeatherApi then [.wa] else []⟩)
    ∧ owGetHistoricalOp = (.ok none, 0) := by
  refine ⟨?_, ?_, ?_, rfl⟩
  · cases hwa : cfg.hasWeatherApi
    · simp [getHistorical, hmiss, hwa]
    · cases hwc : pv.waHistorical q dateISO <;>
        simp [getHistorical, hmiss, hwa, hwc]
  · intro hwa
    simp [getHistorical, hmiss, hwa]
  · intro err herr
    cases hwa : cfg.hasWeatherApi <;>
      simp [getHistorical, hmiss, hwa, herr]

/-- C9 witness: concrete states — WeatherAPI key absent, and WeatherAPI
failing — both fail terminally even though OpenWeather is configured. -/
theorem historical_wa_only_c9_wit :
    getHistorical cfgNone pvBase emptyHistCache 0 qParis 19000
      = ⟨.error noHistoricalMsg, emptyHistCache, []⟩
    ∧ getHistorical cfgBoth pvBase emptyHistCache 0 qParis 19000
      = ⟨.error noHistoricalMsg, emptyHistCache,
         if cfgBoth.hasWeatherApi then [.wa] else []⟩
    ∧ PCall.ow ∉ (getHistorical cfgBoth pvBase emptyHistCache 0 qParis
        19000).calls := by
  refine ⟨?_, ?_, ?_⟩
  · exact (historical_wa_only_c9 cfgNone pvBase emptyHistCache 0 qParis 19000
      (by decide)).2.1 (by decide)
  · exact (historical_wa_only_c9 cfgBoth pvBase emptyHistCache 0 qParis 19000
      (by decide)).2.2.1 "weatherapi down" (by decide)
  · exact (historical_wa_only_c9 cfgBoth pvBase emptyHistCache 0 qParis 19000
      (by decide)).1

/-- C8 (amended): registration stores the caller-supplied record as-is —
with a fresh id and creation stamp but no validation — so the stored
channel and `webhookUrl` are exactly the inputs, whether or not they
satisfy the webhook invariant. -/
theorem webhook_invariant_c8 (m : AlertRegistry) (id : String) (now : Nat)
    (a : AlertInput)
    (hfresh : (m.map Prod.fst).contains id = false) :
    (registerAlert m id now a).2 = m ++ [(id, (registerAlert m id now a).1)]
    ∧ (registerAlert m id now a).1.channel = a.channel
    ∧ (registerAlert m id now a).1.webhookUrl = a.webhookUrl
    ∧ (registerAlert m id now a).1.id = id
    ∧ (registerAlert m id now a).1.createdAt = now := by
  refine ⟨?_, rfl, rfl, rfl, rfl⟩
  simp only [registerAlert, mapSet, hfresh]
  simp

/-- C8 counterexample: registering a webhook-channel alert without a
`webhookUrl` stores it as-is, so the registry holds an alert violating
"webhookUrl present iff channel is webhook". -/
theorem webhook_invariant_c8_cex :
    ¬ (∀ p ∈ (registerAlert [] "id1" 0 badWebhookInput).2,
        (p.2.webhookUrl.isSome ↔ p.2.channel = .webhook)) := by decide

/-- C8 witness: the amended registration behaviour instantiated
concretely. -/
theorem webhook_invariant_c8_wit :
    (registerAlert [] "id1" 0 badWebhookInput).2
      = [] ++ [("id1", (registerAlert [] "id1" 0 badWebhookInput).1)]
    ∧ (registerAlert [] "id1" 0 badWebhookInput).1.channel
      = badWebhookInput.channel
    ∧ (registerAlert [] "id1" 0 badWebhookInput).1.webhookUrl
      = badWebhookInput.webhookUrl
    ∧ (registerAlert [] "id1" 0 badWebhookInput).1.id = "id1"
    ∧ (registerAlert [] "id1" 0 badWebhookInput).1.createdAt = 0 :=
  webhook_invariant_c8 [] "id1" 0 badWebhookInput (by decide)

/-- C10: an alert with a threshold-based condition type but no threshold is
left unchanged by every sweep — the evaluation reports no trigger and
dispatches nothing, whatever the fetched weather values. -/
theorem alert_missing_threshold_c10 (now : Nat)
    (fF : LocationQuery → Nat → Except String Forecast)
    (fC : LocationQuery → Except String CurrentWeather) (a : WeatherAlert)
    (htype : a.condition.type = .temp_above ∨ a.condition.type = .temp_below
      ∨ a.condition.type = .wind_above)
    (hthr : a.condition.threshold = none)
    (l₁ l₂ : List WeatherAlert) :
    (∀ r, evaluateAlert now fF fC a = .ok r → r = (a, []))
    ∧ pollAlerts now fF fC (l₁ ++ a :: l₂)
        = pollAlerts now fF fC l₁ ++ (a, []) :: pollAlerts now fF fC l₂ := by
  have h1 : ∀ r, evaluateAlert now fF fC a = .ok r → r = (a, []) := by
    intro r h
    rcases htype with ht | ht | ht <;>
      (cases hfc : fC a.location <;> simp_all [evaluateAlert])
  refine ⟨h1, ?_⟩
  cases heval : evaluateAlert now fF fC a with
  | ok r => rw [h1 r heval] at heval; simp [pollAlerts, heval]
  | error e => simp [pollAlerts, heval]

/-- C10 witness: a sweep over a registry holding a threshold-less
`wind_above` alert leaves it untouched and dispatches nothing. -/
theorem alert_missing_threshold_c10_wit :
    pollAlerts 0 (fun _ _ => .error "no forecast") (fun _ => .ok current28)
      [alertNoThr] = [(alertNoThr, [])] := by
  have h := alert_missing_threshold_c10 0 (fun _ _ => .error "no forecast")
    (fun _ => .ok current28) alertNoThr (Or.inr (Or.inr rfl)) rfl [] []
  simpa [pollAlerts] using h.2


theorem alookup_cons (p : Nat × OWDayAcc) (t : List (Nat × OWDayAcc)) (d : Nat) :
    alookup (p :: t) d = if p.1 = d then some p.2 else alookup t d := by
  simp only [alookup, List.find?_cons]
  cases hb : (p.1 == d) <;> simp [hb]
  · rw [if_neg (by simpa using hb)]
  · rw [if_pos (by simpa using hb)]

theorem alookup_eq_none_iff (m : List (Nat × OWDayAcc)) (d : Nat) :
    alookup m d = none ↔ d ∉ m.map Prod.fst := by
  induction m with
  | nil => simp [alookup]
  | cons p t ih =>
    rw [alookup_cons]
    by_cases h : p.1 = d
    · simp [h]
    · simp [h, ih, Ne.symm h]

theorem alookup_append_of_none (m₁ m₂ : List (Nat × OWDayAcc)) (d : Nat)
    (h : alookup m₁ d = none) : alookup (m₁ ++ m₂) d = alookup m₂ d := by
  induction m₁ with
  | nil => simp
  | cons p t ih =>
    rw [alookup_cons] at h
    rw [List.cons_append, alookup_cons]
    by_cases hp : p.1 = d
    · simp [hp] at h
    · simp only [if_neg hp] at h ⊢
      exact ih h

theorem alookup_append_of_some (m₁ m₂ : List (Nat × OWDayAcc)) (d : Nat)
    (v : OWDayAcc) (h : alookup m₁ d = some v) :
    alookup (m₁ ++ m₂) d = some v := by
  induction m₁ with
  | nil => simp [alookup] at h
  | cons p t ih =>
    rw [alookup_cons] at h
    rw [List.cons_append, alookup_cons]
    by_cases hp : p.1 = d
    · simpa [hp] using h
    · simp only [if_neg hp] at h ⊢
      exact ih h

/-- Lookup after the in-place replacement performed by `owStep`. -/
theorem alookup_map_replace (m : List (Nat × OWDayAcc)) (dIt : Nat)
    (newAcc : OWDayAcc) (d : Nat) :
    alookup (m.map (fun p => if p.1 == dIt then (dIt, newAcc) else p)) d
      = if d = dIt then (alookup m d).map (fun _ => newAcc) else alookup m d := by
  induction m with
  | nil => simp [alookup]
  | cons p t ih =>
    simp only [beq_iff_eq] at ih
    by_cases hd : d = dIt
    · subst hd
      by_cases hp : p.1 = d
      · simp [alookup_cons, hp, List.map_cons]
      · simp [alookup_cons, hp, List.map_cons, ih]
    · by_cases hp : p.1 = dIt
      · have hpd : ¬ p.1 = d := by rw [hp]; exact fun hh => hd hh.symm
        have hdd : ¬ (dIt : Nat) = d := fun hh => hd hh.symm
        simp [alookup_cons, hp, hpd, hd, hdd, List.map_cons, ih]
      · by_cases hpd : p.1 = d
        · simp [alookup_cons, hp, hpd, hd, List.map_cons]
        · simp [alookup_cons, hp, hpd, hd, List.map_cons, ih]

theorem alookup_owStep_self (units : Units) (m : List (Nat × OWDayAcc))
    (it : OWItem) :
    alookup (owStep units m it) (owDayIndex it)
      = some (owUpd units ((alookup m (owDayIndex it)).getD {}) it) := by
  cases hl : alookup m (owDayIndex it) with
  | none =>
    simp only [owStep, hl]
    rw [alookup_append_of_none _ _ _ hl, alookup_cons]
    simp
  | some acc =>
    simp only [owStep, hl]
    rw [alookup_map_replace]
    simp [hl]

theorem alookup_owStep_ne (units : Units) (m : List (Nat × OWDayAcc))
    (it : OWItem) (d : Nat) (hne : d ≠ owDayIndex it) :
    alookup (owStep units m it) d = alookup m d := by
  cases hl : alookup m (owDayIndex it) with
  | none =>
    simp only [owStep, hl]
    cases hd : alookup m d with
    | none =>
      rw [alookup_append_of_none _ _ _ hd, alookup_cons]
      simp [Ne.symm hne, alookup]
    | some v => rw [alookup_append_of_some _ _ _ _ hd]
  | some acc =>
    simp only [owStep, hl]
    rw [alookup_map_replace]
    simp [hne]

theorem owByDate_snoc (units : Units) (l : List OWItem) (it : OWItem) :
    owByDate units (l ++ [it]) = owStep units (owByDate units l) it := by
  simp [owByDate, List.foldl_append]

/-- The `byDate` accumulator holds, for each day, exactly the fold of that
day's samples in order. -/
theorem alookup_owByDate (units : Units) (l : List OWItem) (d : Nat) :
    alookup (owByDate units l) d
      = if (l.filter (fun it => owDayIndex it == d)) = [] then none
        else some ((l.filter (fun it => owDayIndex it == d)).foldl
          (owUpd units) {}) := by
  induction l using List.reverseRecOn with
  | nil => simp [owByDate, alookup]
  | append_singleton l it ih =>
    rw [owByDate_snoc]
    by_cases hd : d = owDayIndex it
    · subst hd
      rw [alookup_owStep_self]
      rw [List.filter_append]
      simp only [List.filter_cons, List.filter_nil]
      rw [show (owDayIndex it == owDayIndex it) = true from by simp]
      by_cases hfil : (l.filter (fun x => owDayIndex x == owDayIndex it)) = []
      · simp [ih, hfil]
      · simp [ih, hfil, List.foldl_append]
    · rw [alookup_owStep_ne _ _ _ _ hd]
      rw [ih, List.filter_append]
      simp only [List.filter_cons, List.filter_nil]
      rw [show (owDayIndex it == d) = false from by simpa using Ne.symm hd]
      simp

theorem owStep_keys (units : Units) (m : List (Nat × OWDayAcc)) (it : OWItem) :
    (owStep units m it).map Prod.fst
      = if alookup m (owDayIndex it) = none
        then m.map Prod.fst ++ [owDayIndex it]
        else m.map Prod.fst := by
  cases hl : alookup m (owDayIndex it) with
  | none => simp [owStep, hl]
  | some acc =>
    rw [if_neg (show ¬ (some acc = none) by simp)]
    simp only [owStep, hl, List.map_map]
    refine List.map_congr_left ?_
    intro p _
    by_cases hp : p.1 = owDayIndex it
    · simp [hp]
    · simp [hp]

theorem owByDate_keys_nodup (units : Units) (l : List OWItem) :
    ((owByDate units l).map Prod.fst).Nodup := by
  induction l using List.reverseRecOn with
  | nil => simp [owByDate]
  | append_singleton l it ih =>
    rw [owByDate_snoc, owStep_keys]
    cases hl : alookup (owByDate units l) (owDayIndex it) with
    | none =>
      rw [if_pos rfl, List.nodup_append]
      refine ⟨ih, List.nodup_singleton _, ?_⟩
      intro a ha hb
      simp at hb
      subst hb
      exact absurd hl (by simpa [alookup_eq_none_iff] using ha)
    | some acc =>
      rw [if_neg (show ¬ ((some acc : Option OWDayAcc) = none) by simp)]
      exact ih

theorem alookup_owByDate_none_iff (units : Units) (l : List OWItem) (d : Nat) :
    alookup (owByDate units l) d = none ↔ d ∉ l.map owDayIndex := by
  rw [alookup_owByDate]
  by_cases hfil : (l.filter (fun it => owDayIndex it == d)) = []
  · rw [if_pos hfil]
    simp only [List.filter_eq_nil_iff] at hfil
    simp only [true_iff]
    intro hd
    rcases List.mem_map.1 hd with ⟨it, hit, hd2⟩
    exact hfil it hit (by simpa using hd2)
  · rw [if_neg hfil]
    have hfil2 : ∃ it ∈ l, (owDayIndex it == d) = true := by
      by_contra hcon
      push_neg at hcon
      exact hfil (List.filter_eq_nil_iff.2 (by simpa using hcon))
    rcases hfil2 with ⟨it, hit, hbeq⟩
    constructor
    · intro h
      exact absurd h (by simp)
    · intro h
      exact absurd (List.mem_map.2 ⟨it, hit, by simpa using hbeq⟩) h

theorem mem_owByDate_keys (units : Units) (l : List OWItem) (d : Nat) :
    d ∈ (owByDate units l).map Prod.fst ↔ d ∈ l.map owDayIndex :=
  not_iff_not.1
    ((alookup_eq_none_iff (owByDate units l) d).symm.trans
      (alookup_owByDate_none_iff units l d))

/-- Sorting the `byDate` keys coincides with sorting the deduplicated day
indices of the samples. -/
theorem owSortedDates_eq (units : Units) (days : Nat) (l : List OWItem) :
    owSortedDates units days l
      = (((l.map owDayIndex).dedup).insertionSort (fun a b => a ≤ b)).take days := by
  unfold owSortedDates
  congr 1
  refine List.eq_of_perm_of_sorted ?_ (List.sorted_insertionSort _ _)
    (List.sorted_insertionSort _ _)
  refine ((List.perm_insertionSort _ _).trans ?_).trans
    (List.perm_insertionSort _ _).symm
  refine (List.perm_ext_iff_of_nodup (owByDate_keys_nodup units l)
    (List.nodup_dedup _)).2 ?_
  intro d
  rw [mem_owByDate_keys, List.mem_dedup]

theorem filterMap_mkday_map_date (byD : List (Nat × OWDayAcc)) (ds : List Nat)
    (h : ∀ d ∈ ds, d ∈ byD.map Prod.fst) :
    (ds.filterMap (fun d => (alookup byD d).map (owMkDay d))).map
        (fun fd => fd.date) = ds := by
  induction ds with
  | nil => simp
  | cons d t ih =>
    have hd : d ∈ byD.map Prod.fst := h d (List.mem_cons_self _ _)
    have hsome : ∃ acc, alookup byD d = some acc := by
      cases hl : alookup byD d with
      | none => exact absurd ((alookup_eq_none_iff _ _).1 hl) (by simpa using hd)
      | some acc => exact ⟨acc, rfl⟩
    rcases hsome with ⟨acc, hacc⟩
    simp [List.filterMap_cons, hacc, owMkDay,
      ih (fun x hx => h x (List.mem_cons_of_mem _ hx))]

/-- Every date in the truncated sorted key list is a `byDate` key. -/
theorem owSortedDates_subset_keys (units : Units) (days : Nat)
    (l : List OWItem) :
    ∀ d ∈ owSortedDates units days l, d ∈ (owByDate units l).map Prod.fst := by
  intro d hd
  unfold owSortedDates at hd
  have := List.take_subset days _ hd
  exact (List.perm_insertionSort (fun a b : Nat => a ≤ b) _).subset this

/-- The output days of the bucketing are exactly the sorted, truncated day
indices. -/
theorem owForecastDays_map_date (units : Units) (days : Nat) (l : List OWItem) :
    (owForecastDays units days l).map (fun fd => fd.date)
      = owSortedDates units days l :=
  filterMap_mkday_map_date _ _ (owSortedDates_subset_keys units days l)

/-- Field-wise description of folding a day's samples into an
accumulator. -/
theorem foldl_owUpd_fields (units : Units) (s : List OWItem) (a : OWDayAcc) :
    (s.foldl (owUpd units) a).tempsC
        = a.tempsC ++ s.map (fun it => owTempC units it.temp)
    ∧ (s.foldl (owUpd units) a).tempsF
        = a.tempsF ++ s.map (fun it => owTempF units it.temp)
    ∧ (s.foldl (owUpd units) a).totalSlots = a.totalSlots + s.length
    ∧ (s.foldl (owUpd units) a).rainSlots
        = a.rainSlots + (s.filter (fun it => truthyNum it.rain3h)).length
    ∧ (s.foldl (owUpd units) a).snowSlots
        = a.snowSlots + (s.filter (fun it => truthyNum it.snow3h)).length := by
  induction s generalizing a with
  | nil => simp
  | cons it t ih =>
    simp only [List.foldl_cons, List.map_cons, List.filter_cons, List.length_cons]
    rcases ih (owUpd units a it) with ⟨h1, h2, h3, h4, h5⟩
    refine ⟨?_, ?_, ?_, ?_, ?_⟩
    · rw [h1]; simp [owUpd]
    · rw [h2]; simp [owUpd]
    · rw [h3]; simp [owUpd]; omega
    · rw [h4]
      cases hr : truthyNum it.rain3h <;> simp [owUpd, hr] <;> omega
    · rw [h5]
      cases hr : truthyNum it.snow3h <;> simp [owUpd, hr] <;> omega

theorem init_le_foldl_max (xs : List ℚ) (x : ℚ) : x ≤ xs.foldl max x := by
  induction xs generalizing x with
  | nil => exact le_refl x
  | cons z zs ih =>
    exact le_trans (le_max_left x z) (ih (max x z))

theorem foldl_max_mem (xs : List ℚ) (x : ℚ) : xs.foldl max x ∈ x :: xs := by
  induction xs generalizing x with
  | nil => simp
  | cons y ys ih =>
    simp only [List.foldl_cons]
    rcases List.mem_cons.1 (ih (max x y)) with h | h
    · rw [h]
      rcases max_choice x y with hxy | hxy <;> rw [hxy] <;> simp
    · exact List.mem_cons_of_mem _ (List.mem_cons_of_mem _ h)

theorem mem_le_foldl_max (xs : List ℚ) (x y : ℚ) (h : y ∈ x :: xs) :
    y ≤ xs.foldl max x := by
  induction xs generalizing x with
  | nil => simp at h; simp [h]
  | cons z zs ih =>
    simp only [List.foldl_cons]
    rcases List.mem_cons.1 h with rfl | h'
    · exact le_trans (le_max_left y z) (init_le_foldl_max zs (max y z))
    · rcases List.mem_cons.1 h' with rfl | h''
      · exact le_trans (le_max_right x y) (init_le_foldl_max zs (max x y))
      · exact ih (max x z) (List.mem_cons_of_mem _ h'')

theorem qMax_mem {l : List ℚ} (h : l ≠ []) : qMax l ∈ l := by
  cases l with
  | nil => exact absurd rfl h
  | cons x xs => exact foldl_max_mem xs x

theorem le_qMax {l : List ℚ} {x : ℚ} (hx : x ∈ l) : x ≤ qMax l := by
  cases l with
  | nil => simp at hx
  | cons y ys => exact mem_le_foldl_max ys y x hx

theorem foldl_min_ge (xs : List ℚ) (x : ℚ) : xs.foldl min x ≤ x := by
  induction xs generalizing x with
  | nil => exact le_refl x
  | cons z zs ih =>
    exact le_trans (ih (min x z)) (min_le_left x z)

theorem foldl_min_mem (xs : List ℚ) (x : ℚ) : xs.foldl min x ∈ x :: xs := by
  induction xs generalizing x with
  | nil => simp
  | cons y ys ih =>
    simp only [List.foldl_cons]
    rcases List.mem_cons.1 (ih (min x y)) with h | h
    · rw [h]
      rcases min_choice x y with hxy | hxy <;> rw [hxy] <;> simp
    · exact List.mem_cons_of_mem _ (List.mem_cons_of_mem _ h)

theorem foldl_min_le_mem (xs : List ℚ) (x y : ℚ) (h : y ∈ x :: xs) :
    xs.foldl min x ≤ y := by
  induction xs generalizing x with
  | nil => simp at h; simp [h]
  | cons z zs ih =>
    simp only [List.foldl_cons]
    rcases List.mem_cons.1 h with rfl | h'
    · exact le_trans (foldl_min_ge zs (min y z)) (min_le_left y z)
    · rcases List.mem_cons.1 h' with rfl | h''
      · exact le_trans (foldl_min_ge zs (min x y)) (min_le_right x y)
      · exact ih (min x z) (List.mem_cons_of_mem _ h'')

theorem qMin_mem {l : List ℚ} (h : l ≠ []) : qMin l ∈ l := by
  cases l with
  | nil => exact absurd rfl h
  | cons x xs => exact foldl_min_mem xs x

theorem qMin_le {l : List ℚ} {x : ℚ} (hx : x ∈ l) : qMin l ≤ x := by
  cases l with
  | nil => simp at hx
  | cons y ys => exact foldl_min_le_mem ys y x hx

/-- C2: the OpenWeather forecast bucketing groups sub-daily samples by UTC
calendar date; the output dates are exactly the sorted, deduplicated,
truncated sample dates (so zero-sample days are omitted) in strictly
ascending order; and each reported day carries the arithmetic mean and the
extrema of that day's sample temperatures, and rain/snow chances equal to
the flagged-slot fraction as a percentage rounded to nearest. -/
theorem ow_forecast_bucketing_c2 (units : Units) (days : Nat) (l : List OWItem) :
    ((owForecastDays units days l).map (fun fd => fd.date))
        = (((l.map owDayIndex).dedup).insertionSort (fun a b => a ≤ b)).take days
    ∧ ((owForecastDays units days l).map (fun fd => fd.date)).Sorted (· < ·)
    ∧ (∀ fd ∈ owForecastDays units days l,
        daySamples l fd.date ≠ []
        ∧ fd.avgTempC = some ((dayTempsC units l fd.date).sum
            / ((daySamples l fd.date).length : ℚ))
        ∧ fd.avgTempF = some ((dayTempsF units l fd.date).sum
            / ((daySamples l fd.date).length : ℚ))
        ∧ fd.maxTempC = some (qMax (dayTempsC units l fd.date))
        ∧ qMax (dayTempsC units l fd.date) ∈ dayTempsC units l fd.date
        ∧ (∀ x ∈ dayTempsC units l fd.date, x ≤ qMax (dayTempsC units l fd.date))
        ∧ fd.minTempC = some (qMin (dayTempsC units l fd.date))
        ∧ qMin (dayTempsC units l fd.date) ∈ dayTempsC units l fd.date
        ∧ (∀ x ∈ dayTempsC units l fd.date, qMin (dayTempsC units l fd.date) ≤ x)
        ∧ fd.maxTempF = some (qMax (dayTempsF units l fd.date))
        ∧ fd.minTempF = some (qMin (dayTempsF units l fd.date))
        ∧ fd.chanceOfRainPct = some (jsRound
            ((((daySamples l fd.date).filter
                (fun it => truthyNum it.rain3h)).length : ℚ)
              / ((daySamples l fd.date).length : ℚ) * 100))
        ∧ fd.chanceOfSnowPct = some (jsRound
            ((((daySamples l fd.date).filter
                (fun it => truthyNum it.snow3h)).length : ℚ)
              / ((daySamples l fd.date).length : ℚ) * 100))) := by
  refine ⟨(owForecastDays_map_date units days l).trans
    (owSortedDates_eq units days l), ?_, ?_⟩
  · rw [owForecastDays_map_date, owSortedDates_eq]
    have hsorted : (((l.map owDayIndex).dedup).insertionSort
        (fun a b => a ≤ b)).Sorted (· ≤ ·) := List.sorted_insertionSort _ _
    have hnodup : (((l.map owDayIndex).dedup).insertionSort
        (fun a b => a ≤ b)).Nodup :=
      (List.perm_insertionSort _ _).nodup_iff.2 (List.nodup_dedup _)
    exact List.Pairwise.sublist (List.take_sublist _ _)
      (hsorted.lt_of_le hnodup)
  · intro fd hfd
    unfold owForecastDays at hfd
    rcases List.mem_filterMap.1 hfd with ⟨d, _hd, hmap⟩
    rcases Option.map_eq_some'.1 hmap with ⟨acc, hacc, hfdeq⟩
    subst hfdeq
    rw [alookup_owByDate] at hacc
    by_cases hfil : (l.filter (fun it => owDayIndex it == d)) = []
    · rw [if_pos hfil] at hacc
      exact absurd hacc (by simp)
    · rw [if_neg hfil] at hacc
      have haccval : acc
          = (l.filter (fun it => owDayIndex it == d)).foldl (owUpd units) {} :=
        (Option.some.inj hacc).symm
      subst haccval
      obtain ⟨h1, h2, h3, h4, h5⟩ :=
        foldl_owUpd_fields units (l.filter (fun it => owDayIndex it == d)) {}
      simp only [show ({} : OWDayAcc).tempsC = [] from rfl,
        show ({} : OWDayAcc).tempsF = [] from rfl,
        show ({} : OWDayAcc).totalSlots = 0 from rfl,
        show ({} : OWDayAcc).rainSlots = 0 from rfl,
        show ({} : OWDayAcc).snowSlots = 0 from rfl,
        List.nil_append, Nat.zero_add] at h1 h2 h3 h4 h5
      have hdate : (owMkDay d ((l.filter
          (fun it => owDayIndex it == d)).foldl (owUpd units) {})).date = d := rfl
      rw [hdate]
      simp only [dayTempsC, dayTempsF, daySamples]
      have hlen : ((l.filter (fun it => owDayIndex it == d)).map
          (fun it => owTempC units it.temp)).length
          = (l.filter (fun it => owDayIndex it == d)).length :=
        List.length_map _ _
      have hlenF : ((l.filter (fun it => owDayIndex it == d)).map
          (fun it => owTempF units it.temp)).length
          = (l.filter (fun it => owDayIndex it == d)).length :=
        List.length_map _ _
      have hmapC : (l.filter (fun it => owDayIndex it == d)).map
          (fun it => owTempC units it.temp) ≠ [] := by
        intro hh
        exact hfil (List.map_eq_nil_iff.1 hh)
      have hmapF : (l.filter (fun it => owDayIndex it == d)).map
          (fun it => owTempF units it.temp) ≠ [] := by
        intro hh
        exact hfil (List.map_eq_nil_iff.1 hh)
      have hns : (l.filter (fun it => owDayIndex it == d)).length ≠ 0 := by
        intro hh
        exact hfil (List.length_eq_zero.1 hh)
      refine ⟨hfil, ?_, ?_, ?_, ?_, ?_, ?_, ?_, ?_, ?_, ?_, ?_, ?_⟩
      · simp only [owMkDay, h1, hlen]
      · simp only [owMkDay, h2, hlenF]
      · simp only [owMkDay, h1]
      · exact qMax_mem hmapC
      · intro x hx
        exact le_qMax hx
      · simp only [owMkDay, h1]
      · exact qMin_mem hmapC
      · intro x hx
        exact qMin_le hx
      · simp only [owMkDay, h2]
      · simp only [owMkDay, h2]
      · simp only [owMkDay, h3, h4]
        rw [if_pos hns]
      · simp only [owMkDay, h3, h5]
        rw [if_pos hns]

/-- C2 witness: the spec's example — 2 rain-flagged of 4 slots on day 0 and
0 of 2 on day 1 — yields days [0, 1] with `chanceOfRainPct` 50 on day 0. -/
theorem ow_forecast_bucketing_c2_wit :
    fdEx ∈ owForecastDays .metric 3 exampleSlots
    ∧ (owForecastDays .metric 3 exampleSlots).map (fun fd => fd.date) = [0, 1]
    ∧ daySamples exampleSlots fdEx.date ≠ []
    ∧ fdEx.chanceOfRainPct = some 50 := by
  have h := ow_forecast_bucketing_c2 .metric 3 exampleSlots
  have hdates : (owForecastDays .metric 3 exampleSlots).map (fun fd => fd.date)
      = [0, 1] := by
    rw [h.1]
    decide
  have hne : owForecastDays .metric 3 exampleSlots ≠ [] := by
    intro hnil
    rw [hnil] at hdates
    simp at hdates
  have hmem : fdEx ∈ owForecastDays .metric 3 exampleSlots := by
    unfold fdEx
    cases hl : owForecastDays .metric 3 exampleSlots with
    | nil => exact absurd hl hne
    | cons x xs => simp
  have hdate0 : fdEx.date = 0 := by
    unfold fdEx
    cases hl : owForecastDays .metric 3 exampleSlots with
    | nil => exact absurd hl hne
    | cons x xs =>
      rw [hl] at hdates
      simp at hdates
      simpa using hdates.1
  refine ⟨hmem, hdates, (h.2.2 fdEx hmem).1, ?_⟩
  have hrain := (h.2.2 fdEx hmem).2.2.2.2.2.2.2.2.2.2.2.1
  rw [hrain, hdate0]
  have hsamp : daySamples exampleSlots 0
      = [ { dt := 0, temp := 20, rain3h := some 1 },
          { dt := 10800, temp := 22 },
          { dt := 21600, temp := 24, rain3h := some 2 },
          { dt := 32400, temp := 26 } ] := by
    simp [daySamples, exampleSlots, owDayIndex]
  rw [hsamp]
  have hfl : (([ { dt := 0, temp := 20, rain3h := some 1 },
          { dt := 10800, temp := 22 },
          { dt := 21600, temp := 24, rain3h := some 2 },
          { dt := 32400, temp := 26 } ] : List OWItem).filter
        (fun it => truthyNum it.rain3h)).length = 2 := by
    simp [truthyNum]
  rw [hfl]
  have : jsRound ((2 : ℚ) / 4 * 100) = 50 := by
    rw [jsRound, Int.floor_eq_iff] <;> norm_num
  simpa using this

end WeatherWise
